import Mathlib

/-!
Verification of the air-quality computation core of
`ZipToAirQuality.py` (Air-Quality-from-Zip-Code-with-OpenAQ).

The embedding models pollutant concentrations as exact rationals.
Python's built-in `round` (round half to even) is modelled by `pyRound`.
The AQI interpolator `pm25_to_aqi` / `calc_aqi`, the per-pollutant
quality classifier cascade of `get_air_quality`, and the report assembly
of `get_air_quality_measurements_by_zip` are translated directly from
the source.
-/

/-- Python's built-in `round` on an exact rational: round to the nearest
integer, ties going to the even neighbour (banker's rounding). -/
def pyRound (q : ℚ) : ℤ :=
  if q - Rat.floor q < 1/2 then Rat.floor q
  else if 1/2 < q - Rat.floor q then Rat.floor q + 1
  else if Rat.floor q % 2 = 0 then Rat.floor q else Rat.floor q + 1

/-- The linear-interpolation expression `(a/b)*c + Il` with
`a = Ih - Il`, `b = BPh - BPl`, `c = Cp - BPl`, computed inside
`calc_aqi` before rounding (source lines 173-177). -/
def linSeg (Cp Ih Il BPh BPl : ℚ) : ℚ :=
  (Ih - Il) / (BPh - BPl) * (Cp - BPl) + Il

/-- Source `calc_aqi(Cp, Ih, Il, BPh, BPl)`: linear interpolation of the
index over one breakpoint segment, rounded with Python `round`. -/
def calc_aqi (Cp Ih Il BPh BPl : ℚ) : ℤ :=
  pyRound (linSeg Cp Ih Il BPh BPl)

/-- Source `pm25_to_aqi(pm25)` (lines 153-171): `None` for negative
input, saturation at 500, otherwise segment selection by strict `>`
cutoffs from highest to lowest; the trailing `none` models Python's
implicit fall-through return. -/
def pm25_to_aqi (pm25 : ℚ) : Option ℤ :=
  if pm25 < 0 then none
  else if pm25 > 500 then some 500
  else if pm25 > 350.5 then some (calc_aqi pm25 500 401 500 350.5)
  else if pm25 > 250.5 then some (calc_aqi pm25 400 301 350.4 250.5)
  else if pm25 > 150.5 then some (calc_aqi pm25 300 201 250.4 150.5)
  else if pm25 > 55.5 then some (calc_aqi pm25 200 151 150.4 55.5)
  else if pm25 > 35.5 then some (calc_aqi pm25 150 101 55.4 35.5)
  else if pm25 > 12.1 then some (calc_aqi pm25 100 51 35.4 12.1)
  else if pm25 ≥ 0 then some (calc_aqi pm25 50 0 12 0)
  else none

/-- One breakpoint segment: index bounds `Ih`, `Il` and concentration
bounds `BPh`, `BPl`, as passed to `calc_aqi`. -/
structure Segment where
  Ih : ℚ
  Il : ℚ
  BPh : ℚ
  BPl : ℚ
deriving DecidableEq, Repr

/-- The seven breakpoint segments, highest first, exactly the argument
tuples of the `calc_aqi` calls in `pm25_to_aqi` (source lines 158-171). -/
def pm25Segments : List Segment :=
  [⟨500, 401, 500, 350.5⟩,
   ⟨400, 301, 350.4, 250.5⟩,
   ⟨300, 201, 250.4, 150.5⟩,
   ⟨200, 151, 150.4, 55.5⟩,
   ⟨150, 101, 55.4, 35.5⟩,
   ⟨100, 51, 35.4, 12.1⟩,
   ⟨50, 0, 12, 0⟩]

/-- The unrounded piecewise-linear interpolation underlying
`pm25_to_aqi` on `[0, 500]`: the same strict `>` segment selection with
the same `calc_aqi` argument tuples, before rounding. -/
def linAQI (v : ℚ) : ℚ :=
  if v > 350.5 then linSeg v 500 401 500 350.5
  else if v > 250.5 then linSeg v 400 301 350.4 250.5
  else if v > 150.5 then linSeg v 300 201 250.4 150.5
  else if v > 55.5 then linSeg v 200 151 150.4 55.5
  else if v > 35.5 then linSeg v 150 101 55.4 35.5
  else if v > 12.1 then linSeg v 100 51 35.4 12.1
  else linSeg v 50 0 12 0

/-- The strict `>` cutoffs guarding the segment-selecting `calc_aqi`
branches of `pm25_to_aqi` (source lines 158-169), highest first. The
guard `pm25 > 500` is the saturation check, not a segment selection, so
it is not listed. -/
def aqiSegmentCutoffs : List ℚ :=
  [350.5, 250.5, 150.5, 55.5, 35.5, 12.1]

/-- The quality-annotation cascade of `get_air_quality` (source lines
60-105): per-pollutant thresholds checked from the highest cutoff
downward with strict `>`; a parameter outside the supported set receives
no category. -/
def qualityFor (parameter : String) (value : ℚ) : Option String :=
  if parameter = "pm25" then
    some (if value > 250.5 then "Hazardous"
      else if value > 150.5 then "Very Unhealthy"
      else if value > 55.5 then "Unhealthy"
      else if value > 35.5 then "Unhealthy for Sensitive Groups"
      else if value > 12.1 then "Moderate"
      else "Good")
  else if parameter = "pm10" then
    some (if value > 350.5 then "Very Unhealthy"
      else if value > 250.5 then "Unhealthy"
      else if value > 150.5 then "Poor"
      else if value > 55.5 then "Good"
      else "Very Good")
  else if parameter = "o3" then
    some (if value > 0.125 then "Very Unhealthy"
      else if value > 0.095 then "Unhealthy"
      else if value > 0.065 then "Moderate"
      else if value > 0.035 then "Good"
      else "Very Good")
  else if parameter = "no2" then
    some (if value > 0.2 then "Very Unhealthy"
      else if value > 0.1 then "Unhealthy"
      else if value > 0.05 then "Moderate"
      else if value > 0.025 then "Good"
      else "Very Good")
  else none

/-- Stated from the spec's words (§4.1) for the refinement claim: walk
an ordered threshold table from the highest cutoff downward and return
the first category whose cutoff the value strictly exceeds; a value at
or below the lowest cutoff receives the table's best category. -/
def specClassify (table : List (ℚ × String)) (best : String) (v : ℚ) : String :=
  match table with
  | [] => best
  | (cut, cat) :: rest => if v > cut then cat else specClassify rest best v

/-- The PM2.5 tier boundaries and categories of the spec's table. -/
def pm25Tiers : List (ℚ × String) :=
  [(250.5, "Hazardous"), (150.5, "Very Unhealthy"), (55.5, "Unhealthy"),
   (35.5, "Unhealthy for Sensitive Groups"), (12.1, "Moderate")]

/-- The PM10 tier boundaries and categories of the spec's table. -/
def pm10Tiers : List (ℚ × String) :=
  [(350.5, "Very Unhealthy"), (250.5, "Unhealthy"), (150.5, "Poor"),
   (55.5, "Good")]

/-- The O3 tier boundaries and categories of the spec's table. -/
def o3Tiers : List (ℚ × String) :=
  [(0.125, "Very Unhealthy"), (0.095, "Unhealthy"), (0.065, "Moderate"),
   (0.035, "Good")]

/-- The NO2 tier boundaries and categories of the spec's table. -/
def no2Tiers : List (ℚ × String) :=
  [(0.2, "Very Unhealthy"), (0.1, "Unhealthy"), (0.05, "Moderate"),
   (0.025, "Good")]

/-- One annotated measurement as stored in the `measurements` dict of
`get_air_quality`: value, unit, and the optional quality category. -/
structure Measurement where
  value : ℚ
  unit : String
  quality : Option String
deriving DecidableEq, Repr

/-- One loop iteration of `get_air_quality` (source lines 54-105):
store value and unit and attach the quality category when the parameter
is supported. -/
def processMeasurement (parameter : String) (value : ℚ) (unit : String) :
    Measurement :=
  ⟨value, unit, qualityFor parameter value⟩

/-- Python-dict insertion on an association list: replace the value at
an existing key in place, otherwise append the new binding. -/
def dictInsert (d : List (String × α)) (k : String) (v : α) :
    List (String × α) :=
  match d with
  | [] => [(k, v)]
  | e :: rest => if e.1 = k then (k, v) :: rest else e :: dictInsert rest k v

/-- Python-dict lookup on an association list. -/
def dictGet (d : List (String × α)) (k : String) : Option α :=
  match d with
  | [] => none
  | e :: rest => if e.1 = k then some e.2 else dictGet rest k

/-- The measurement loop of `get_air_quality`: build the `measurements`
dict from a list of raw (parameter, value, unit) readings. -/
def buildMeasurements (ms : List (String × ℚ × String)) :
    List (String × Measurement) :=
  ms.foldl (fun d m => dictInsert d m.1 (processMeasurement m.1 m.2.1 m.2.2)) []

/-- The `AQI_package` dict of `get_air_quality_measurements_by_zip`:
the interpolated AQI value and the quality copied from the PM2.5
measurement. -/
structure AQIPackage where
  value : Option ℤ
  quality : Option String
deriving DecidableEq, Repr

/-- A value of the result dict of `get_air_quality_measurements_by_zip`:
pollutant entries hold measurements, the pseudo-key `AQI` holds the
optional AQI package, the pseudo-key `location` holds a string. -/
inductive ReportValue where
  | meas : Measurement → ReportValue
  | aqi : Option AQIPackage → ReportValue
  | loc : String → ReportValue
deriving DecidableEq, Repr

/-- The `AQI_package` accumulation loop of
`get_air_quality_measurements_by_zip` (source lines 197-204): start from
`None` and set the package whenever the key is `pm25`. -/
def findAQIPackage (d : List (String × Measurement)) : Option AQIPackage :=
  d.foldl
    (fun acc e =>
      if e.1 = "pm25" then some ⟨pm25_to_aqi e.2.value, e.2.quality⟩ else acc)
    none

/-- Report assembly of `get_air_quality_measurements_by_zip` (source
lines 190-209): the measurements dict extended with the pseudo-keys
`AQI` and `location`. -/
def assembleReport (location : String) (d : List (String × Measurement)) :
    List (String × ReportValue) :=
  dictInsert
    (dictInsert (d.map fun e => (e.1, ReportValue.meas e.2))
      "AQI" (ReportValue.aqi (findAQIPackage d)))
    "location" (ReportValue.loc location)

/-- The full pipeline applied to a measurement set holding exactly one
PM2.5, one PM10 and one O3 reading. -/
def sampleReport (vP vQ vO : ℚ) (uP uQ uO loc : String) :
    List (String × ReportValue) :=
  assembleReport loc
    (buildMeasurements [("pm25", vP, uP), ("pm10", vQ, uQ), ("o3", vO, uO)])

/-- The executable `Rat.floor` agrees with the floor of the `FloorRing`
structure on `ℚ`. -/
theorem ratFloor_eq_floor (q : ℚ) : Rat.floor q = ⌊q⌋ :=
  (Rat.floor_def' q).trans Rat.floor_def.symm

/-- Evaluation rule for `pyRound` when the input lies in `[n, n + 1/2)`:
the result is `n`. -/
theorem pyRound_eq_int (n : ℤ) (q : ℚ) (h1 : (n : ℚ) ≤ q)
    (h2 : q < (n : ℚ) + 1/2) : pyRound q = n := by
  have hf : ⌊q⌋ = n := Int.floor_eq_iff.mpr ⟨h1, by linarith⟩
  unfold pyRound
  rw [ratFloor_eq_floor, hf, if_pos (by linarith)]

/-- C2: the AQI interpolator satisfies the concrete cases of the spec:
0 ↦ 0, 12 ↦ 50, 35.4 ↦ 100, 55.4 ↦ 150, 550 ↦ 500 (saturated), and a
negative input yields the undefined sentinel `none`; the segment table
it interpolates over is exactly the seven listed segments. -/
theorem pm25_to_aqi_concrete_cases :
    pm25_to_aqi 0 = some 0 ∧
    pm25_to_aqi 12 = some 50 ∧
    pm25_to_aqi 35.4 = some 100 ∧
    pm25_to_aqi 55.4 = some 150 ∧
    pm25_to_aqi 550 = some 500 ∧
    pm25_to_aqi (-5) = none ∧
    pm25Segments =
      [⟨500, 401, 500, 350.5⟩, ⟨400, 301, 350.4, 250.5⟩,
       ⟨300, 201, 250.4, 150.5⟩, ⟨200, 151, 150.4, 55.5⟩,
       ⟨150, 101, 55.4, 35.5⟩, ⟨100, 51, 35.4, 12.1⟩, ⟨50, 0, 12, 0⟩] := by
  refine ⟨?_, ?_, ?_, ?_, ?_, ?_, rfl⟩
  · norm_num [pm25_to_aqi, calc_aqi]
    exact pyRound_eq_int 0 _ (by norm_num [linSeg]) (by norm_num [linSeg])
  · norm_num [pm25_to_aqi, calc_aqi]
    exact pyRound_eq_int 50 _ (by norm_num [linSeg]) (by norm_num [linSeg])
  · norm_num [pm25_to_aqi, calc_aqi]
    exact pyRound_eq_int 100 _ (by norm_num [linSeg]) (by norm_num [linSeg])
  · norm_num [pm25_to_aqi, calc_aqi]
    exact pyRound_eq_int 150 _ (by norm_num [linSeg]) (by norm_num [linSeg])
  · norm_num [pm25_to_aqi]
  · norm_num [pm25_to_aqi]

/-- C3: every negative concentration is answered with the explicit
undefined sentinel `none`; the function is total, so no fault is
raised. -/
theorem pm25_to_aqi_neg_none (v : ℚ) (h : v < 0) : pm25_to_aqi v = none := by
  unfold pm25_to_aqi
  rw [if_pos h]

/-- Witness for C3 at the concrete input -3. -/
theorem pm25_to_aqi_neg_none_witness : pm25_to_aqi (-3) = none :=
  pm25_to_aqi_neg_none (-3) (by norm_num)

/-- C4: every concentration above 500 saturates to exactly 500. -/
theorem pm25_to_aqi_saturates (v : ℚ) (h : v > 500) :
    pm25_to_aqi v = some 500 := by
  unfold pm25_to_aqi
  rw [if_neg (by linarith), if_pos h]

/-- Witness for C4 at the concrete input 600. -/
theorem pm25_to_aqi_saturates_witness : pm25_to_aqi 600 = some 500 :=
  pm25_to_aqi_saturates 600 (by norm_num)

/-- `pyRound` never rounds below the floor of its argument. -/
theorem floor_le_pyRound (q : ℚ) : ⌊q⌋ ≤ pyRound q := by
  unfold pyRound
  rw [ratFloor_eq_floor]
  split_ifs <;> omega

/-- `pyRound` never rounds above the floor of its argument plus one. -/
theorem pyRound_le_floor_add_one (q : ℚ) : pyRound q ≤ ⌊q⌋ + 1 := by
  unfold pyRound
  rw [ratFloor_eq_floor]
  split_ifs <;> omega

/-- Python rounding is monotone: a larger rational never rounds to a
smaller integer. -/
theorem pyRound_mono {a b : ℚ} (hab : a ≤ b) : pyRound a ≤ pyRound b := by
  have hf : ⌊a⌋ ≤ ⌊b⌋ := Int.floor_mono hab
  rcases eq_or_lt_of_le hf with he | hlt
  · have hfr : a - ⌊a⌋ ≤ b - ⌊b⌋ := by
      rw [← he]
      have := Int.floor_le a
      linarith
    unfold pyRound
    rw [ratFloor_eq_floor, ratFloor_eq_floor, ← he]
    split_ifs <;> first | omega | linarith
  · calc pyRound a ≤ ⌊a⌋ + 1 := pyRound_le_floor_add_one a
    _ ≤ ⌊b⌋ := by omega
    _ ≤ pyRound b := floor_le_pyRound b

/-- An upper integer bound on the argument bounds `pyRound` above. -/
theorem pyRound_le_of_le {q : ℚ} {n : ℤ} (h : q ≤ (n : ℚ)) : pyRound q ≤ n := by
  rcases eq_or_lt_of_le (Int.floor_le_floor h) with he | hlt
  · have hfl : ⌊(n : ℚ)⌋ = n := Int.floor_intCast n
    have : q - ⌊q⌋ < 1/2 := by
      rw [he, hfl]
      linarith
    unfold pyRound
    rw [ratFloor_eq_floor, if_pos this, ← hfl, ← he]
  · have := pyRound_le_floor_add_one q
    rw [Int.floor_intCast] at hlt
    omega

/-- A lower integer bound on the argument bounds `pyRound` below. -/
theorem le_pyRound_of_le {q : ℚ} {n : ℤ} (h : (n : ℚ) ≤ q) : n ≤ pyRound q := by
  have : n ≤ ⌊q⌋ := Int.le_floor.mpr h
  have := floor_le_pyRound q
  omega

/-- On `[0, 500]` the interpolator returns the Python rounding of the
piecewise-linear function `linAQI`. -/
theorem pm25_to_aqi_eq_pyRound_linAQI {v : ℚ} (h0 : 0 ≤ v) (h5 : v ≤ 500) :
    pm25_to_aqi v = some (pyRound (linAQI v)) := by
  unfold pm25_to_aqi linAQI
  rw [if_neg (not_lt.mpr h0), if_neg (not_lt.mpr h5)]
  split_ifs <;> rfl

set_option maxHeartbeats 3200000 in
/-- The piecewise-linear interpolation is monotone on `[0, 500]`,
including across segment boundaries. -/
theorem linAQI_mono {v w : ℚ} (h0 : 0 ≤ v) (hvw : v ≤ w) (h5 : w ≤ 500) :
    linAQI v ≤ linAQI w := by
  unfold linAQI linSeg
  split_ifs <;> linarith

/-- On `[0, 500]` the piecewise-linear interpolation stays within the
index range `[0, 500]`. -/
theorem linAQI_bounds {v : ℚ} (h0 : 0 ≤ v) (h5 : v ≤ 500) :
    0 ≤ linAQI v ∧ linAQI v ≤ 500 := by
  unfold linAQI linSeg
  split_ifs <;> constructor <;> linarith

/-- C5: the AQI interpolator is monotonically non-decreasing on
`[0, 500]`: both values are defined and the value at the smaller
concentration never exceeds the value at the larger one, across segment
boundaries and through the rounding step. -/
theorem pm25_to_aqi_mono (v w : ℚ) (h0 : 0 ≤ v) (hvw : v ≤ w) (h5 : w ≤ 500) :
    ∃ m n : ℤ, pm25_to_aqi v = some m ∧ pm25_to_aqi w = some n ∧ m ≤ n :=
  ⟨pyRound (linAQI v), pyRound (linAQI w),
    pm25_to_aqi_eq_pyRound_linAQI h0 (hvw.trans h5),
    pm25_to_aqi_eq_pyRound_linAQI (h0.trans hvw) h5,
    pyRound_mono (linAQI_mono h0 hvw h5)⟩

/-- Witness for C5 at the concrete pair 10 ≤ 20. -/
theorem pm25_to_aqi_mono_witness :
    ∃ m n : ℤ, pm25_to_aqi 10 = some m ∧ pm25_to_aqi 20 = some n ∧ m ≤ n :=
  pm25_to_aqi_mono 10 20 (by norm_num) (by norm_num) (by norm_num)

/-- C8: the interpolator is total on the valid domain: no breakpoint
segment has a zero-width concentration range (every division in
`calc_aqi` is by a nonzero quantity), and every non-negative
concentration is mapped to a defined integer between 0 and 500, so the
implicit fall-through branch is unreachable. -/
theorem pm25_to_aqi_total :
    (∀ s ∈ pm25Segments, s.BPh - s.BPl ≠ 0) ∧
    ∀ v : ℚ, 0 ≤ v → ∃ n : ℤ, pm25_to_aqi v = some n ∧ 0 ≤ n ∧ n ≤ 500 := by
  constructor
  · intro s hs
    simp only [pm25Segments, List.mem_cons, List.not_mem_nil, or_false] at hs
    rcases hs with h | h | h | h | h | h | h <;> rw [h] <;> norm_num
  · intro v h0
    rcases le_or_lt v 500 with h5 | h5
    · obtain ⟨hlo, hhi⟩ := linAQI_bounds h0 h5
      refine ⟨pyRound (linAQI v), pm25_to_aqi_eq_pyRound_linAQI h0 h5, ?_, ?_⟩
      · exact le_pyRound_of_le (by exact_mod_cast hlo)
      · exact pyRound_le_of_le (by exact_mod_cast hhi)
    · exact ⟨500, pm25_to_aqi_saturates v h5, by norm_num, le_refl 500⟩

/-- Witness for C8 at the concrete input 123.4. -/
theorem pm25_to_aqi_total_witness :
    (⟨200, 151, 150.4, 55.5⟩ : Segment).BPh -
      (⟨200, 151, 150.4, 55.5⟩ : Segment).BPl ≠ 0 ∧
    ∃ n : ℤ, pm25_to_aqi 123.4 = some n ∧ 0 ≤ n ∧ n ≤ 500 :=
  ⟨pm25_to_aqi_total.1 ⟨200, 151, 150.4, 55.5⟩ (by norm_num [pm25Segments]),
    pm25_to_aqi_total.2 123.4 (by norm_num)⟩

/-- Evaluation rule for `calc_aqi`: if the unrounded interpolation lies
in `[n, n + 1/2)` then the rounded index is exactly `n`. -/
theorem calc_aqi_eq_int (n : ℤ) {Cp Ih Il BPh BPl : ℚ}
    (h1 : (n : ℚ) ≤ linSeg Cp Ih Il BPh BPl)
    (h2 : linSeg Cp Ih Il BPh BPl < (n : ℚ) + 1/2) :
    calc_aqi Cp Ih Il BPh BPl = n :=
  pyRound_eq_int n _ h1 h2

/-- C6: segment continuity within rounding. For every pair of adjacent
breakpoint segments, the rounded index at the lower segment's high
concentration bound differs from the rounded index at the upper
segment's low concentration bound by at most one index unit. -/
theorem calc_aqi_boundary_continuity :
    ∀ p ∈ pm25Segments.zip pm25Segments.tail,
      (calc_aqi p.2.BPh p.2.Ih p.2.Il p.2.BPh p.2.BPl -
        calc_aqi p.1.BPl p.1.Ih p.1.Il p.1.BPh p.1.BPl).natAbs ≤ 1 := by
  intro p hp
  fin_cases hp
  · rw [show (calc_aqi 350.4 400 301 350.4 250.5 = 400) from
        calc_aqi_eq_int 400 (by norm_num [linSeg]) (by norm_num [linSeg]),
      show (calc_aqi 350.5 500 401 500 350.5 = 401) from
        calc_aqi_eq_int 401 (by norm_num [linSeg]) (by norm_num [linSeg])]
    decide
  · rw [show (calc_aqi 250.4 300 201 250.4 150.5 = 300) from
        calc_aqi_eq_int 300 (by norm_num [linSeg]) (by norm_num [linSeg]),
      show (calc_aqi 250.5 400 301 350.4 250.5 = 301) from
        calc_aqi_eq_int 301 (by norm_num [linSeg]) (by norm_num [linSeg])]
    decide
  · rw [show (calc_aqi 150.4 200 151 150.4 55.5 = 200) from
        calc_aqi_eq_int 200 (by norm_num [linSeg]) (by norm_num [linSeg]),
      show (calc_aqi 150.5 300 201 250.4 150.5 = 201) from
        calc_aqi_eq_int 201 (by norm_num [linSeg]) (by norm_num [linSeg])]
    decide
  · rw [show (calc_aqi 55.4 150 101 55.4 35.5 = 150) from
        calc_aqi_eq_int 150 (by norm_num [linSeg]) (by norm_num [linSeg]),
      show (calc_aqi 55.5 200 151 150.4 55.5 = 151) from
        calc_aqi_eq_int 151 (by norm_num [linSeg]) (by norm_num [linSeg])]
    decide
  · rw [show (calc_aqi 35.4 100 51 35.4 12.1 = 100) from
        calc_aqi_eq_int 100 (by norm_num [linSeg]) (by norm_num [linSeg]),
      show (calc_aqi 35.5 150 101 55.4 35.5 = 101) from
        calc_aqi_eq_int 101 (by norm_num [linSeg]) (by norm_num [linSeg])]
    decide
  · rw [show (calc_aqi 12 50 0 12 0 = 50) from
        calc_aqi_eq_int 50 (by norm_num [linSeg]) (by norm_num [linSeg]),
      show (calc_aqi 12.1 100 51 35.4 12.1 = 51) from
        calc_aqi_eq_int 51 (by norm_num [linSeg]) (by norm_num [linSeg])]
    decide

/-- Witness for C6 at the adjacent pair of the two lowest segments. -/
theorem calc_aqi_boundary_continuity_witness :
    (calc_aqi (⟨50, 0, 12, 0⟩ : Segment).BPh (⟨50, 0, 12, 0⟩ : Segment).Ih
        (⟨50, 0, 12, 0⟩ : Segment).Il (⟨50, 0, 12, 0⟩ : Segment).BPh
        (⟨50, 0, 12, 0⟩ : Segment).BPl -
      calc_aqi (⟨100, 51, 35.4, 12.1⟩ : Segment).BPl
        (⟨100, 51, 35.4, 12.1⟩ : Segment).Ih
        (⟨100, 51, 35.4, 12.1⟩ : Segment).Il
        (⟨100, 51, 35.4, 12.1⟩ : Segment).BPh
        (⟨100, 51, 35.4, 12.1⟩ : Segment).BPl).natAbs ≤ 1 :=
  calc_aqi_boundary_continuity (⟨100, 51, 35.4, 12.1⟩, ⟨50, 0, 12, 0⟩)
    (by simp [pm25Segments])

/-- C1: for every concentration, the source classifier cascade agrees
with the spec's highest-cutoff-first strict `>` table walk for each of
the four supported pollutants; a value at or below the lowest cutoff
receives the best category; and an unsupported pollutant is kept in the
result with its value and unit but no category and no error. -/
theorem classifier_matches_tables (v : ℚ) :
    qualityFor "pm25" v = some (specClassify pm25Tiers "Good" v) ∧
    qualityFor "pm10" v = some (specClassify pm10Tiers "Very Good" v) ∧
    qualityFor "o3" v = some (specClassify o3Tiers "Very Good" v) ∧
    qualityFor "no2" v = some (specClassify no2Tiers "Very Good" v) ∧
    (v ≤ 12.1 → qualityFor "pm25" v = some "Good") ∧
    (v ≤ 55.5 → qualityFor "pm10" v = some "Very Good") ∧
    (v ≤ 0.035 → qualityFor "o3" v = some "Very Good") ∧
    (v ≤ 0.025 → qualityFor "no2" v = some "Very Good") ∧
    ∀ p u, p ∉ (["pm25", "pm10", "o3", "no2"] : List String) →
      processMeasurement p v u = ⟨v, u, none⟩ := by
  refine ⟨rfl, rfl, rfl, rfl, ?_, ?_, ?_, ?_, ?_⟩
  · intro h
    simp [qualityFor, show ¬v > 250.5 by linarith, show ¬v > 150.5 by linarith,
      show ¬v > 55.5 by linarith, show ¬v > 35.5 by linarith,
      show ¬v > 12.1 by linarith]
  · intro h
    simp [qualityFor, show ¬v > 350.5 by linarith, show ¬v > 250.5 by linarith,
      show ¬v > 150.5 by linarith, show ¬v > 55.5 by linarith]
  · intro h
    simp [qualityFor, show ¬v > 0.125 by linarith, show ¬v > 0.095 by linarith,
      show ¬v > 0.065 by linarith, show ¬v > 0.035 by linarith]
  · intro h
    simp [qualityFor, show ¬v > 0.2 by linarith, show ¬v > 0.1 by linarith,
      show ¬v > 0.05 by linarith, show ¬v > 0.025 by linarith]
  · intro p u hp
    simp only [List.mem_cons, List.not_mem_nil, or_false, not_or] at hp
    obtain ⟨h1, h2, h3, h4⟩ := hp
    simp [processMeasurement, qualityFor, h1, h2, h3, h4]

/-- Witness for C1: the PM2.5 cascade at 40, the lowest-tier case at 10,
and the pass-through of the unsupported pollutant so2. -/
theorem classifier_matches_tables_witness :
    qualityFor "pm25" 40 = some (specClassify pm25Tiers "Good" 40) ∧
    qualityFor "pm25" 10 = some "Good" ∧
    processMeasurement "so2" 40 "ppm" = ⟨40, "ppm", none⟩ :=
  ⟨(classifier_matches_tables 40).1,
    (classifier_matches_tables 10).2.2.2.2.1 (by norm_num),
    (classifier_matches_tables 40).2.2.2.2.2.2.2.2 "so2" "ppm" (by decide)⟩

/-- C7 counterexample: the cutoff 350.5 guards a strict `>`
segment-selecting branch of the interpolator but is not a tier boundary
of the PM2.5 classifier, so the two cutoff sets are not equal. -/
theorem aqi_cutoff_not_classifier_boundary :
    (350.5 : ℚ) ∈ aqiSegmentCutoffs ∧
    (350.5 : ℚ) ∉ pm25Tiers.map Prod.fst := by
  constructor
  · norm_num [aqiSegmentCutoffs]
  · norm_num [pm25Tiers]

/-- C7 amended: the interpolator's segment-selection cutoffs are exactly
the PM2.5 classifier's tier boundaries plus the one extra cutoff 350.5;
in particular every classifier tier boundary is an interpolator
cutoff. -/
theorem aqi_cutoffs_extend_classifier :
    aqiSegmentCutoffs = 350.5 :: pm25Tiers.map Prod.fst ∧
    ∀ c ∈ pm25Tiers.map Prod.fst, c ∈ aqiSegmentCutoffs := by
  refine ⟨rfl, ?_⟩
  intro c hc
  exact List.mem_cons_of_mem _ hc

/-- Witness for C7 at the classifier tier boundary 12.1. -/
theorem aqi_cutoffs_extend_classifier_witness :
    (12.1 : ℚ) ∈ aqiSegmentCutoffs :=
  aqi_cutoffs_extend_classifier.2 12.1 (by norm_num [pm25Tiers])

/-- C9: for a measurement set holding PM2.5, PM10 and O3 readings, the
assembled report carries a quality category for each of the three
pollutants, and the AQI pseudo-entry holds `pm25_to_aqi` of the PM2.5
value alone, however the other measurement values are varied, with the
AQI entry's category equal to the PM2.5 measurement's category. -/
theorem report_assembly (vP vQ vO : ℚ) (uP uQ uO loc : String) :
    ∃ mP mQ mO : Measurement,
      dictGet (sampleReport vP vQ vO uP uQ uO loc) "pm25"
          = some (ReportValue.meas mP) ∧
      mP.quality.isSome = true ∧
      dictGet (sampleReport vP vQ vO uP uQ uO loc) "pm10"
          = some (ReportValue.meas mQ) ∧
      mQ.quality.isSome = true ∧
      dictGet (sampleReport vP vQ vO uP uQ uO loc) "o3"
          = some (ReportValue.meas mO) ∧
      mO.quality.isSome = true ∧
      dictGet (sampleReport vP vQ vO uP uQ uO loc) "AQI"
          = some (ReportValue.aqi (some ⟨pm25_to_aqi vP, mP.quality⟩)) :=
  ⟨processMeasurement "pm25" vP uP, processMeasurement "pm10" vQ uQ,
    processMeasurement "o3" vO uO, rfl, rfl, rfl, rfl, rfl, rfl, rfl⟩

/-- Lookup after inserting the looked-up key finds the inserted value. -/
theorem dictGet_insert_self (d : List (String × α)) (k : String) (v : α) :
    dictGet (dictInsert d k v) k = some v := by
  induction d with
  | nil => simp [dictInsert, dictGet]
  | cons e rest ih =>
    by_cases he : e.1 = k
    · simp [dictInsert, dictGet, he]
    · simp [dictInsert, dictGet, he, ih]

/-- Lookup of a key different from the inserted key is unchanged. -/
theorem dictGet_insert_ne (d : List (String × α)) (k1 k2 : String) (v : α)
    (h : k1 ≠ k2) : dictGet (dictInsert d k1 v) k2 = dictGet d k2 := by
  induction d with
  | nil => simp [dictInsert, dictGet, h]
  | cons e rest ih =>
    by_cases he : e.1 = k1
    · simp [dictInsert, dictGet, he, h]
    · simp only [dictInsert, he, if_false]
      by_cases he2 : e.1 = k2
      · simp [dictGet, he2]
      · simp [dictGet, he2, ih]

/-- Folding the `AQI_package` loop over a dict with no `pm25` key leaves
the accumulator unchanged. -/
theorem findAQIPackage_loop_fixed (d : List (String × Measurement))
    (h : ∀ e ∈ d, e.1 ≠ "pm25") (acc : Option AQIPackage) :
    d.foldl
      (fun acc e =>
        if e.1 = "pm25" then some ⟨pm25_to_aqi e.2.value, e.2.quality⟩ else acc)
      acc = acc := by
  induction d generalizing acc with
  | nil => rfl
  | cons e rest ih =>
    rw [List.foldl_cons, if_neg (h e (List.mem_cons_self e rest))]
    exact ih (fun x hx => h x (List.mem_cons_of_mem e hx)) acc

/-- Without a `pm25` entry the `AQI_package` stays `None`. -/
theorem findAQIPackage_none (d : List (String × Measurement))
    (h : ∀ e ∈ d, e.1 ≠ "pm25") : findAQIPackage d = none :=
  findAQIPackage_loop_fixed d h none

/-- C10: every assembled report contains the pseudo-keys `AQI` and
`location`: `location` maps to the location string, `AQI` maps to the
accumulated package, and when the measurement set has no PM2.5 entry the
`AQI` key is still present and maps to the undefined sentinel `none`. -/
theorem report_pseudo_keys (loc : String) (d : List (String × Measurement)) :
    dictGet (assembleReport loc d) "location" = some (ReportValue.loc loc) ∧
    dictGet (assembleReport loc d) "AQI"
      = some (ReportValue.aqi (findAQIPackage d)) ∧
    ((∀ e ∈ d, e.1 ≠ "pm25") →
      dictGet (assembleReport loc d) "AQI" = some (ReportValue.aqi none)) := by
  have hA : dictGet (assembleReport loc d) "AQI"
      = some (ReportValue.aqi (findAQIPackage d)) := by
    unfold assembleReport
    rw [dictGet_insert_ne _ _ _ _ (by decide)]
    exact dictGet_insert_self _ _ _
  refine ⟨?_, hA, fun h => ?_⟩
  · exact dictGet_insert_self _ _ _
  · rw [hA, findAQIPackage_none d h]

/-- Witness for C10 on a one-element measurement set without PM2.5. -/
theorem report_pseudo_keys_witness :
    dictGet (assembleReport "KoP" [("o3", ⟨0.03, "ppm", some "Very Good"⟩)])
      "AQI" = some (ReportValue.aqi none) :=
  (report_pseudo_keys "KoP" [("o3", ⟨0.03, "ppm", some "Very Good"⟩)]).2.2
    (by
      intro e he
      rw [List.mem_singleton] at he
      subst he
      decide)
